import Mathlib

/-!
# Verification of the Stream Deck IP-display plugin against its specification

Shallow embedding of the plugin's button actions
(`src/actions/local-ip-display.ts`, `src/actions/public-ip-only-display.ts`
and the full toggle action), together with proofs about the embedded
behaviour.

Conventions of the embedding:

* TypeScript `string | null` becomes `Option String`; JavaScript truthiness
  on such a value (`if (x)`) is `jsTruthyStr` — `null` and the empty string
  are falsy.
* `Date.now()` timestamps are integers (milliseconds); every call site that
  reads the clock takes the corresponding instant as an explicit parameter.
* The single `fetch` of the public-IP echo service is an explicit
  `FetchResult` parameter: either one of the three throwing failures
  (network error, non-ok HTTP status which the code turns into a `throw`,
  or a body that fails JSON parsing), or a parsed body carrying the
  optional `ip` field.
* Handlers that talk back to the host (`setImage`, `setSettings`) return
  the ordered list of those host calls instead of performing them.
-/

namespace IPDisplay

/-- JavaScript truthiness of a `string | null` value: `null` and `""` are
falsy, every other string is truthy. -/
def jsTruthyStr : Option String → Bool
  | none => false
  | some s => !s.isEmpty

/-- The JavaScript expression `x || null` on a `string | undefined` value:
a missing or empty field collapses to `null`. -/
def jsOrNull (v : Option String) : Option String :=
  if jsTruthyStr v then v else none

/-- The JavaScript expression `x || d` defaulting a `string | null` to a
fixed fallback string. -/
def jsOrString (v : Option String) (d : String) : String :=
  match v with
  | some s => if s.isEmpty then d else s
  | none => d

/-- The `publicIPCache` field: `{ ip: string | null; timestamp: number }`. -/
structure PublicIPCache where
  ip : Option String
  timestamp : Int
  deriving DecidableEq, Repr

/-- `CACHE_DURATION = 5 * 60 * 1000` milliseconds. -/
def CACHE_DURATION : Int := 5 * 60 * 1000

/-- `LONG_PRESS_THRESHOLD = 800` milliseconds. -/
def LONG_PRESS_THRESHOLD : Int := 800

/-- Outcome of the one `fetch('https://api.ipify.org?format=json')` call.
`netError` is a rejected fetch, `httpError` a response with `ok === false`
(the code throws on it), `jsonError` a body that `response.json()` cannot
parse; `ok ip?` is a parsed JSON body whose optional `ip` field is `ip?`
(`none` when the field is absent). -/
inductive FetchResult where
  | netError
  | httpError (status : Nat)
  | jsonError
  | ok (ip? : Option String)
  deriving DecidableEq, Repr

/-- The failure outcomes that reach the `catch` block of
`getPublicIPAddress`: everything except a parsed body. -/
def fetchThrows : FetchResult → Bool
  | .ok _ => false
  | _ => true

/-- The cache pre-check of `getPublicIPAddress`:
`this.publicIPCache.ip && (now - this.publicIPCache.timestamp) < CACHE_DURATION`. -/
def cacheValid (cache : PublicIPCache) (now : Int) : Bool :=
  jsTruthyStr cache.ip && decide (now - cache.timestamp < CACHE_DURATION)

/-- Result of one call to `getPublicIPAddress`: the cache field after the
call, the returned value, and whether the outbound `fetch` was evaluated. -/
structure FetchStep where
  cache : PublicIPCache
  result : Option String
  lookupIssued : Bool
  deriving DecidableEq, Repr

/-- `getPublicIPAddress` (identical in `local-ip-display.ts`,
`public-ip-only-display.ts` and the toggle action): serve the cached value
when it is truthy and younger than `CACHE_DURATION`; otherwise fetch.  A
parsed body stores `data.ip || null` into the cache and returns it; any
throwing failure is caught, leaves the cache as it was, and returns the
currently cached value. -/
def getPublicIPAddress (cache : PublicIPCache) (now : Int)
    (fetch : FetchResult) : FetchStep :=
  if cacheValid cache now then
    ⟨cache, cache.ip, false⟩
  else
    match fetch with
    | .ok ip? =>
        let publicIP := jsOrNull ip?
        ⟨⟨publicIP, now⟩, publicIP, true⟩
    | _ => ⟨cache, cache.ip, true⟩

/-! ## Local address resolution (`getLocalIPAddress`) -/

/-- The `family` field of a Node `os.networkInterfaces()` entry: either the
legacy numeric encoding or the modern string one. -/
inductive AddrFamily where
  | str (s : String)
  | num (n : Int)
  deriving DecidableEq, Repr

/-- `typeof net.family === 'string' ? net.family === 'IPv4' : net.family === 4`. -/
def isIPv4Family : AddrFamily → Bool
  | .str s => s == "IPv4"
  | .num n => n == 4

/-- One bound address of an adapter. -/
structure NetAddress where
  family : AddrFamily
  internal : Bool
  address : String
  deriving DecidableEq, Repr

/-- The qualification test applied to each bound address:
`net.family === familyV4Value && !net.internal`. -/
def qualifiesIPv4 (a : NetAddress) : Bool :=
  isIPv4Family a.family && !a.internal

/-- The `os.networkInterfaces()` enumeration: adapter names with their
bound addresses, in enumeration (`Object.keys`) order. -/
abbrev Nets := List (String × List NetAddress)

/-- `nets[name]`: object-key lookup of an adapter by name. -/
def findNet (nets : Nets) (name : String) : Option (List NetAddress) :=
  (nets.find? (fun p => p.fst == name)).map Prod.snd

/-- The inner loop of `getLocalIPAddress`: first address of one adapter
passing the non-internal-IPv4 test. -/
def firstNonInternalIPv4 (addrs : List NetAddress) : Option String :=
  (addrs.find? qualifiesIPv4).map NetAddress.address

/-- The auto-detect loop of `getLocalIPAddress`: first qualifying address
over all adapters in enumeration order. -/
def scanAllNets : Nets → Option String
  | [] => none
  | (_, addrs) :: rest =>
    match firstNonInternalIPv4 addrs with
    | some a => some a
    | none => scanAllNets rest

/-- `getLocalIPAddress(settings)` (identical in `local-ip-display.ts` and
the toggle action), as a function of the adapter enumeration and the
`settings.networkInterface` hint: when the hint is truthy and names an
adapter with a qualifying address, return the first such address; in every
other situation (no hint, empty hint, adapter absent, adapter without a
qualifying address) fall through to the auto-detect scan. -/
def getLocalIPAddress (nets : Nets) (hint : Option String) : Option String :=
  let preferred :=
    match hint with
    | some name =>
        if name.isEmpty then none
        else (findNet nets name).bind firstNonInternalIPv4
    | none => none
  match preferred with
  | some a => some a
  | none => scanAllNets nets

/-- The qualifying addresses of one adapter, in order. -/
def adapterQualifying (addrs : List NetAddress) : List String :=
  (addrs.filter qualifiesIPv4).map NetAddress.address

/-- All qualifying addresses of the enumeration, in enumeration order. -/
def qualifyingAddresses (nets : Nets) : List String :=
  (nets.map (fun p => adapterQualifying p.snd)).flatten

/-- Modelled from the spec's words (§4.1): prefer the first non-loopback
IPv4 address of the hinted adapter when the hint names an adapter with at
least one such address; otherwise return the first qualifying address over
all adapters in enumeration order, `none` when there is none.  Stated as an
independent definition to compare with the source's `getLocalIPAddress`. -/
def resolveLocalAddressSpec (nets : Nets) (hint : Option String) : Option String :=
  let fallback := (qualifyingAddresses nets).head?
  match hint with
  | none => fallback
  | some name =>
      if name.isEmpty then fallback
      else
        match findNet nets name with
        | none => fallback
        | some addrs =>
            match (adapterQualifying addrs).head? with
            | some a => some a
            | none => fallback

/-! ## Settings records -/

/-- `IPSettings` of `local-ip-display.ts`; every field is optional. -/
structure IPSettings where
  refreshInterval : Option Int
  customLocalLabel : Option String
  customPublicLabel : Option String
  multilineIP : Option Bool
  networkInterface : Option String
  deriving DecidableEq, Repr

/-- `ToggleSettings` of the toggle action; `mode` is optional at the
destructuring site (`const { mode = 'dual' } = ev.payload.settings`). -/
structure ToggleSettings where
  mode : Option String
  refreshInterval : Option Int
  customLocalLabel : Option String
  customPublicLabel : Option String
  multilineIP : Option Bool
  networkInterface : Option String
  labelColor : Option String
  ipColor : Option String
  deriving DecidableEq, Repr

/-! ## String-keyed maps (the `Map` fields of the actions) -/

/-- `Map.prototype.get`. -/
def mapGet {α : Type} (m : List (String × α)) (id : String) : Option α :=
  (m.find? (fun p => p.fst == id)).map Prod.snd

/-- `Map.prototype.set`: replace in place when the key exists, append
otherwise. -/
def mapSet {α : Type} : List (String × α) → String → α → List (String × α)
  | [], id, v => [(id, v)]
  | (k, w) :: rest, id, v =>
      if k == id then (k, v) :: rest else (k, w) :: mapSet rest id v

/-- `Map.prototype.delete`. -/
def mapDelete {α : Type} : List (String × α) → String → List (String × α)
  | [], _ => []
  | (k, w) :: rest, id =>
      if k == id then rest else (k, w) :: mapDelete rest id

/-- `Map.prototype.has` (via `get`). -/
def mapHasKey {α : Type} (m : List (String × α)) (id : String) : Bool :=
  (mapGet m id).isSome

/-! ## Rendering (`splitIP`, `generateIPImage`, `generateToggleImage`)

The canvas functions are embedded as structured summaries of what they
draw: the status-dot fill colour, the label texts and the value lines.
Geometry (coordinates, fonts, the PNG encoding) is outside the model. -/

/-- `splitIP`: `null`/empty input gives no split; a dotted string splits at
the second dot only when it has exactly four parts. -/
def splitIP (ip : Option String) : Option (String × String) :=
  match ip with
  | none => none
  | some s =>
      if s.isEmpty then none
      else
        match s.splitOn "." with
        | [a, b, c, d] => some (a ++ "." ++ b ++ ".", c ++ "." ++ d)
        | _ => none

/-- The status-dot colour chain of the dual layouts, written verbatim (and
twice) in `generateIPImage` and in the toggle's dual branch:
green when both values are truthy, orange when exactly one is, red when
none is. -/
def dualStatusDotColor (localIP publicIP : Option String) : String :=
  if jsTruthyStr localIP && jsTruthyStr publicIP then "#00FF00"
  else if jsTruthyStr localIP || jsTruthyStr publicIP then "#FFAA00"
  else "#FF6B6B"

/-- The value lines drawn for one address: in multiline mode the split
halves (placeholder when the split fails), otherwise the single
`ip || placeholder` line. -/
def ipValueLines (multiline : Bool) (ip : Option String)
    (placeholder : String) : List String :=
  if multiline then
    match splitIP ip with
    | some (l1, l2) => [l1, l2]
    | none => [placeholder]
  else [jsOrString ip placeholder]

/-- Summary of the image `generateIPImage` draws. -/
structure IPImageModel where
  dotColor : String
  localLabel : String
  publicLabel : String
  localLines : List String
  publicLines : List String
  deriving DecidableEq, Repr

/-- `generateIPImage` of `local-ip-display.ts`: both layout branches draw
the same labels, the same status dot and the mode-dependent value lines. -/
def generateIPImage (localIP publicIP : Option String)
    (settings : IPSettings) : IPImageModel :=
  { dotColor := dualStatusDotColor localIP publicIP
    localLabel := jsOrString settings.customLocalLabel "LOCAL IP"
    publicLabel := jsOrString settings.customPublicLabel "PUBLIC IP"
    localLines := ipValueLines (settings.multilineIP.getD false) localIP "No Local IP"
    publicLines := ipValueLines (settings.multilineIP.getD false) publicIP "No Public IP" }

/-- Summary of the image `generatePublicIPImage` of
`public-ip-only-display.ts` draws: fixed label, one value line, and a dot
that is green exactly when the value is truthy. -/
structure PublicIPImageModel where
  dotColor : String
  label : String
  line : String
  deriving DecidableEq, Repr

/-- `generatePublicIPImage` of `public-ip-only-display.ts`. -/
def generatePublicIPImage (publicIP : Option String) : PublicIPImageModel :=
  { dotColor := if jsTruthyStr publicIP then "#00FF00" else "#FF6B6B"
    label := "PUBLIC IP"
    line := jsOrString publicIP "No Public IP" }

/-- `getNextMode` of the toggle action: the cycle
`dual → local → public → dual`, any unknown mode resetting to `dual`. -/
def getNextMode (currentMode : String) : String :=
  if currentMode = "dual" then "local"
  else if currentMode = "local" then "public"
  else if currentMode = "public" then "dual"
  else "dual"

/-- Summary of the image `generateToggleImage` draws: status-dot colour,
the (possibly overridden) label/value colours, and the rendered sections as
label/value-lines pairs (two sections in dual mode, one otherwise). -/
structure ToggleImageModel where
  dotColor : String
  labelColor : String
  ipColor : String
  sections : List (String × List String)
  deriving DecidableEq, Repr

/-- `generateToggleImage` of the toggle action. -/
def generateToggleImage (localIP publicIP : Option String) (mode : String)
    (settings : ToggleSettings) : ToggleImageModel :=
  let labelColor := jsOrString settings.labelColor "#C0C0C0"
  let ipColor := jsOrString settings.ipColor "#FFFFFF"
  let localLabel := jsOrString settings.customLocalLabel "LOCAL IP"
  let publicLabel := jsOrString settings.customPublicLabel "PUBLIC IP"
  let multiline := settings.multilineIP.getD false
  if mode = "dual" then
    { dotColor := dualStatusDotColor localIP publicIP
      labelColor := labelColor
      ipColor := ipColor
      sections :=
        [(localLabel, ipValueLines multiline localIP "No Local IP"),
         (publicLabel, ipValueLines multiline publicIP "No Public IP")] }
  else if mode = "local" then
    { dotColor := if jsTruthyStr localIP then "#00FF00" else "#FF6B6B"
      labelColor := labelColor
      ipColor := ipColor
      sections := [(localLabel, ipValueLines multiline localIP "No Local IP")] }
  else
    { dotColor := if jsTruthyStr publicIP then "#00FF00" else "#FF6B6B"
      labelColor := labelColor
      ipColor := ipColor
      sections := [(publicLabel, ipValueLines multiline publicIP "No Public IP")] }

/-! ## Press handling (`onKeyDown` / `onKeyUp`)

The handlers are embedded as state transitions.  Timing convention for a
press: `pressTime` is `Date.now()` at the top of `onKeyDown`; `fetchNow` is
the clock inside the awaited `getPublicIPAddress`; `armTime` is the instant
the `setTimeout` call runs — the handler awaits the public-address lookup
between capturing `pressTime` and arming the timer, so
`pressTime ≤ fetchNow ≤ armTime`.  An armed callback fires at
`timerFireAt = armTime + LONG_PRESS_THRESHOLD` unless `clearTimeout` runs
before that instant. -/

/-- The per-press record stored in `pressTimers` by the dual-display
action: timestamp, the armed timer (kept as its firing instant), and the
address snapshot. -/
structure PressData where
  timestamp : Int
  timerFireAt : Int
  localIP : Option String
  publicIP : Option String
  deriving DecidableEq, Repr

/-- Mutable instance state of the dual-display action class. -/
structure ActionState where
  visibleActions : List (String × IPSettings)
  pressTimers : List (String × PressData)
  publicIPCache : PublicIPCache
  refreshTimer : Option Nat
  deriving DecidableEq, Repr

/-- Host calls the dual-display key handlers can make. -/
inductive HostOp where
  | setImage (img : IPImageModel)
  deriving DecidableEq, Repr

/-- Result of one `onKeyUp` run: the state after it, the host calls it
made in order, and whether an outbound public-address lookup was issued. -/
structure KeyUpResult where
  state : ActionState
  ops : List HostOp
  lookupIssued : Bool
  deriving DecidableEq, Repr

/-- `onKeyDown` of `local-ip-display.ts`: snapshot the addresses, arm the
long-press timer, and store the press record under the instance id. -/
def onKeyDown (st : ActionState) (id : String)
    (pressTime fetchNow armTime : Int) (nets : Nets)
    (settings : IPSettings) (fetch : FetchResult) : ActionState :=
  let localIP := getLocalIPAddress nets settings.networkInterface
  let step := getPublicIPAddress st.publicIPCache fetchNow fetch
  { st with
    publicIPCache := step.cache
    pressTimers := mapSet st.pressTimers id
      ⟨pressTime, armTime + LONG_PRESS_THRESHOLD, localIP, step.result⟩ }

/-- `onKeyUp` of `local-ip-display.ts`: bail out when no press record
exists; otherwise cancel the armed timer, and on a short press clear the
public-address cache (`{ ip: null, timestamp: 0 }`), refetch, re-render and
set the image; finally drop the press record. -/
def onKeyUp (st : ActionState) (id : String) (now : Int) (nets : Nets)
    (settings : IPSettings) (fetch : FetchResult) : KeyUpResult :=
  match mapGet st.pressTimers id with
  | none => ⟨st, [], false⟩
  | some pd =>
      if now - pd.timestamp < LONG_PRESS_THRESHOLD then
        let cleared : PublicIPCache := ⟨none, 0⟩
        let step := getPublicIPAddress cleared now fetch
        let localIP := getLocalIPAddress nets settings.networkInterface
        let img := generateIPImage localIP step.result settings
        ⟨{ st with publicIPCache := step.cache
                   pressTimers := mapDelete st.pressTimers id },
          [.setImage img], step.lookupIssued⟩
      else
        ⟨{ st with pressTimers := mapDelete st.pressTimers id }, [], false⟩

/-- Whether the armed long-press callback of a press record has fired by
the time `clearTimeout` runs (idealised single-threaded timer semantics:
the callback runs exactly at its firing instant unless cleared strictly
before it). -/
def longPressFires (pd : PressData) (clearTime : Int) : Bool :=
  pd.timerFireAt ≤ clearTime

/-- Whether `onKeyUp` at `releaseTime` takes the short-press branch for the
given instance: a press record exists and the recorded elapsed time is
under the threshold. -/
def shortPressFires (st : ActionState) (id : String) (releaseTime : Int) : Bool :=
  match mapGet st.pressTimers id with
  | none => false
  | some pd => releaseTime - pd.timestamp < LONG_PRESS_THRESHOLD

/-! ### The public-IP-only action's key-up handler -/

/-- The press record of `public-ip-only-display.ts` (no local address). -/
structure PPressData where
  timestamp : Int
  timerFireAt : Int
  publicIP : Option String
  deriving DecidableEq, Repr

/-- `IPSettings` of `public-ip-only-display.ts`: only the interval. -/
structure POSettings where
  refreshInterval : Option Int
  deriving DecidableEq, Repr

/-- Mutable instance state of the public-IP-only action class. -/
structure PublicActionState where
  visibleActions : List (String × POSettings)
  pressTimers : List (String × PPressData)
  publicIPCache : PublicIPCache
  refreshTimer : Option Nat
  deriving DecidableEq, Repr

/-- Host calls of the public-IP-only key-up handler. -/
inductive PublicHostOp where
  | setImage (img : PublicIPImageModel)
  deriving DecidableEq, Repr

/-- Result of one `onKeyUp` run of the public-IP-only action. -/
structure PublicKeyUpResult where
  state : PublicActionState
  ops : List PublicHostOp
  lookupIssued : Bool
  deriving DecidableEq, Repr

/-- `onKeyUp` of `public-ip-only-display.ts`: same shape as the dual
display's handler, with a single-address render. -/
def publicOnKeyUp (st : PublicActionState) (id : String) (now : Int)
    (fetch : FetchResult) : PublicKeyUpResult :=
  match mapGet st.pressTimers id with
  | none => ⟨st, [], false⟩
  | some pd =>
      if now - pd.timestamp < LONG_PRESS_THRESHOLD then
        let cleared : PublicIPCache := ⟨none, 0⟩
        let step := getPublicIPAddress cleared now fetch
        ⟨{ st with publicIPCache := step.cache
                   pressTimers := mapDelete st.pressTimers id },
          [.setImage (generatePublicIPImage step.result)], step.lookupIssued⟩
      else
        ⟨{ st with pressTimers := mapDelete st.pressTimers id }, [], false⟩

/-! ### The toggle action's key-up handler -/

/-- The press record of the toggle action (addresses and current mode). -/
structure TPressData where
  timestamp : Int
  timerFireAt : Int
  localIP : Option String
  publicIP : Option String
  mode : String
  deriving DecidableEq, Repr

/-- Mutable instance state of the toggle action class. -/
structure ToggleActionState where
  visibleActions : List (String × ToggleSettings)
  pressTimers : List (String × TPressData)
  publicIPCache : PublicIPCache
  refreshTimer : Option Nat
  deriving DecidableEq, Repr

/-- Host calls of the toggle key-up handler, in order: the persistence
write (`setSettings`) and the image delivery (`setImage`). -/
inductive ToggleOp where
  | setSettings (s : ToggleSettings)
  | setImage (img : ToggleImageModel)
  deriving DecidableEq, Repr

/-- Result of one `onKeyUp` run of the toggle action. -/
structure ToggleKeyUpResult where
  state : ToggleActionState
  ops : List ToggleOp
  lookupIssued : Bool
  deriving DecidableEq, Repr

/-- `onKeyUp` of the toggle action: on a short press compute the next mode,
persist it with `setSettings` (awaited), then clear the public-address
cache, refetch, and deliver the image rendered for the next mode. -/
def toggleOnKeyUp (st : ToggleActionState) (id : String) (now : Int)
    (nets : Nets) (settings : ToggleSettings) (fetch : FetchResult) :
    ToggleKeyUpResult :=
  match mapGet st.pressTimers id with
  | none => ⟨st, [], false⟩
  | some pd =>
      if now - pd.timestamp < LONG_PRESS_THRESHOLD then
        let mode := settings.mode.getD "dual"
        let nextMode := getNextMode mode
        let newSettings := { settings with mode := some nextMode }
        let localIP := getLocalIPAddress nets settings.networkInterface
        let step := getPublicIPAddress ⟨none, 0⟩ now fetch
        let img := generateToggleImage localIP step.result nextMode settings
        ⟨{ st with publicIPCache := step.cache
                   pressTimers := mapDelete st.pressTimers id },
          [.setSettings newSettings, .setImage img], step.lookupIssued⟩
      else
        ⟨{ st with pressTimers := mapDelete st.pressTimers id }, [], false⟩

/-! ## The shared refresh timer (`startRefreshTimer` / appear / disappear)

The timer bookkeeping of one button type, with timers made observable:
every `setInterval` call allocates a fresh handle and adds it to
`activeTimers`; `clearInterval` removes it.  `refreshTimer` is the class
field holding the current handle.  The invariant claims are about
`activeTimers`, which records what is actually scheduled. -/

/-- Timer-bookkeeping state of one button type. -/
structure SchedState where
  visibleActions : List (String × IPSettings)
  refreshTimer : Option Nat
  nextHandle : Nat
  activeTimers : List Nat
  deriving DecidableEq, Repr

/-- The clear-existing-timer prologue of `startRefreshTimer` (and the
stop branch of `onWillDisappear`): `clearInterval` the held handle, if
any, and null the field. -/
def clearRefreshTimer (s : SchedState) : SchedState :=
  match s.refreshTimer with
  | some h => { s with activeTimers := s.activeTimers.erase h, refreshTimer := none }
  | none => s

/-- `startRefreshTimer(settings)`: clear the existing timer, then start a
fresh interval unless the (defaulted) interval is zero or less. -/
def startRefreshTimer (settings : IPSettings) (s : SchedState) : SchedState :=
  let s1 := clearRefreshTimer s
  let refreshInterval := settings.refreshInterval.getD 600000
  if refreshInterval > 0 then
    { s1 with
      refreshTimer := some s1.nextHandle
      activeTimers := s1.activeTimers ++ [s1.nextHandle]
      nextHandle := s1.nextHandle + 1 }
  else s1

/-- The timer half of `onWillAppear`: register the instance, then
(re)start the shared timer with its settings. -/
def schedOnWillAppear (id : String) (settings : IPSettings)
    (s : SchedState) : SchedState :=
  startRefreshTimer settings
    { s with visibleActions := mapSet s.visibleActions id settings }

/-- The timer half of `onWillDisappear`: drop the instance; when no
visible instance remains and a timer is held, clear it. -/
def schedOnWillDisappear (id : String) (s : SchedState) : SchedState :=
  let s1 := { s with visibleActions := mapDelete s.visibleActions id }
  if s1.visibleActions.isEmpty then clearRefreshTimer s1 else s1

/-- The timer half of `onDidReceiveSettings`: restart with the new
settings. -/
def schedOnDidReceiveSettings (settings : IPSettings) (s : SchedState) :
    SchedState :=
  startRefreshTimer settings s

/-- Host lifecycle events feeding the timer bookkeeping. -/
inductive SchedEv where
  | appear (id : String) (settings : IPSettings)
  | disappear (id : String)
  | settingsChanged (id : String) (settings : IPSettings)
  deriving DecidableEq, Repr

/-- Dispatch of one event. -/
def schedStep (s : SchedState) : SchedEv → SchedState
  | .appear id settings => schedOnWillAppear id settings s
  | .disappear id => schedOnWillDisappear id s
  | .settingsChanged _ settings => schedOnDidReceiveSettings settings s

/-- Host-protocol well-formedness of an event against the current state:
`appear` only for an unregistered instance, `disappear` and
`settings-changed` only for a currently visible one. -/
def validEv (s : SchedState) : SchedEv → Bool
  | .appear id _ => !mapHasKey s.visibleActions id
  | .disappear id => mapHasKey s.visibleActions id
  | .settingsChanged id _ => mapHasKey s.visibleActions id

/-- Run a sequence of events, refusing protocol-violating ones. -/
def runSched : SchedState → List SchedEv → Option SchedState
  | s, [] => some s
  | s, e :: es => if validEv s e then runSched (schedStep s e) es else none

/-- The state at class construction: no instances, no timer. -/
def initSched : SchedState := ⟨[], none, 0, []⟩

/-- The held handle is exactly what is scheduled: `[h]` when the field
holds `h`, nothing when it is null. -/
def timerLinked (s : SchedState) : Bool :=
  match s.refreshTimer with
  | some h => s.activeTimers == [h]
  | none => s.activeTimers == []

/-- The timer invariant: the held handle is exactly what is scheduled,
and a held timer implies a non-empty visible set. -/
def schedInv (s : SchedState) : Bool :=
  timerLinked s && (s.refreshTimer == none || !s.visibleActions.isEmpty)

/-! ## Helper lemmas -/

/-- The one-adapter loop returns exactly the head of that adapter's
qualifying-address list. -/
theorem firstNonInternalIPv4_eq_head (addrs : List NetAddress) :
    firstNonInternalIPv4 addrs = (adapterQualifying addrs).head? := by
  induction addrs with
  | nil => rfl
  | cons a rest ih =>
      by_cases h : qualifiesIPv4 a
      · simp [firstNonInternalIPv4, adapterQualifying, List.find?_cons, h]
      · simp only [Bool.not_eq_true] at h
        simp only [firstNonInternalIPv4, adapterQualifying] at ih ⊢
        rw [List.find?_cons, List.filter_cons]
        simp only [h, Bool.false_eq_true, if_false]
        exact ih

/-- The auto-detect scan returns exactly the head of the flattened
qualifying-address list. -/
theorem scanAllNets_eq_head (nets : Nets) :
    scanAllNets nets = (qualifyingAddresses nets).head? := by
  induction nets with
  | nil => rfl
  | cons p rest ih =>
      obtain ⟨name, addrs⟩ := p
      simp only [scanAllNets, qualifyingAddresses, List.map_cons, List.flatten]
      rw [firstNonInternalIPv4_eq_head]
      cases hq : adapterQualifying addrs with
      | nil => simpa [qualifyingAddresses] using ih
      | cons b l => simp

/-- The source resolver equals the spec-side resolver. -/
theorem getLocalIPAddress_eq_spec (nets : Nets) (hint : Option String) :
    getLocalIPAddress nets hint = resolveLocalAddressSpec nets hint := by
  unfold getLocalIPAddress resolveLocalAddressSpec
  cases hint with
  | none => simpa using scanAllNets_eq_head nets
  | some name =>
      by_cases he : name.isEmpty
      · simp [he, scanAllNets_eq_head]
      · cases hf : findNet nets name with
        | none => simp [he, hf, scanAllNets_eq_head]
        | some addrs =>
            simp only [he, hf, Option.some_bind, Bool.false_eq_true, if_false]
            rw [firstNonInternalIPv4_eq_head]
            cases (adapterQualifying addrs).head? with
            | some a => simp
            | none => simpa using scanAllNets_eq_head nets

/-- Every qualifying address of a found adapter occurs in the flattened
qualifying-address list. -/
theorem adapterQualifying_nil_of_qualifying_nil (nets : Nets) (name : String)
    (addrs : List NetAddress) (hf : findNet nets name = some addrs)
    (hq : qualifyingAddresses nets = []) : adapterQualifying addrs = [] := by
  unfold findNet at hf
  cases hfind : nets.find? (fun p => p.fst == name) with
  | none => simp [hfind] at hf
  | some p =>
      have hmem : p ∈ nets := List.mem_of_find?_eq_some hfind
      have hsnd : p.snd = addrs := by simpa [hfind] using hf
      have : adapterQualifying p.snd ∈ nets.map (fun q => adapterQualifying q.snd) :=
        List.mem_map_of_mem _ hmem
      rw [qualifyingAddresses, List.flatten_eq_nil_iff] at hq
      rw [← hsnd]
      exact hq _ this

/-- Setting a key makes it retrievable with the set value. -/
theorem mapGet_mapSet_self {α : Type} (m : List (String × α)) (id : String)
    (v : α) : mapGet (mapSet m id v) id = some v := by
  induction m with
  | nil => simp [mapGet, mapSet]
  | cons p rest ih =>
      obtain ⟨k, w⟩ := p
      by_cases hk : k == id
      · simp [mapSet, mapGet, hk]
      · simp only [mapSet, hk, Bool.false_eq_true, if_false]
        simpa [mapGet, hk] using ih

/-- Deleting one key removes at most one entry. -/
theorem mapDelete_length_ge {α : Type} (m : List (String × α)) (id : String) :
    m.length - 1 ≤ (mapDelete m id).length := by
  induction m with
  | nil => simp [mapDelete]
  | cons p rest ih =>
      obtain ⟨k, w⟩ := p
      by_cases hk : k == id
      · simp [mapDelete, hk]
      · simp only [mapDelete, hk, Bool.false_eq_true, if_false,
          List.length_cons]
        omega

/-- Setting a key never empties the map. -/
theorem mapSet_ne_nil {α : Type} (m : List (String × α)) (id : String)
    (v : α) : mapSet m id v ≠ [] := by
  cases m with
  | nil => simp [mapSet]
  | cons p rest =>
      obtain ⟨k, w⟩ := p
      by_cases hk : k == id <;> simp [mapSet, hk]

/-- A non-nil list is not `isEmpty`. -/
theorem isEmpty_false_of_ne_nil {α : Type} (l : List α) (h : l ≠ []) :
    l.isEmpty = false := by
  cases l with
  | nil => exact absurd rfl h
  | cons a t => rfl

/-- A map with a retrievable key is non-empty. -/
theorem ne_nil_of_mapHasKey {α : Type} (m : List (String × α)) (id : String)
    (h : mapHasKey m id = true) : m ≠ [] := by
  intro hnil
  subst hnil
  simp [mapHasKey, mapGet] at h

/-- `clearRefreshTimer` under the linked-timer invariant: afterwards
nothing is scheduled, the field is null, the visible set is untouched. -/
theorem clearRefreshTimer_spec (s : SchedState) (h : timerLinked s = true) :
    (clearRefreshTimer s).refreshTimer = none ∧
    (clearRefreshTimer s).activeTimers = [] ∧
    (clearRefreshTimer s).visibleActions = s.visibleActions := by
  unfold timerLinked at h
  cases hr : s.refreshTimer with
  | none =>
      rw [hr] at h
      simp only [beq_iff_eq] at h
      simp [clearRefreshTimer, hr, h]
  | some h0 =>
      rw [hr] at h
      simp only [beq_iff_eq] at h
      simp [clearRefreshTimer, hr, h, List.erase_cons_head]

/-- `startRefreshTimer` under the linked-timer invariant: the invariant is
preserved and the visible set is untouched. -/
theorem startRefreshTimer_spec (settings : IPSettings) (s : SchedState)
    (h : timerLinked s = true) :
    timerLinked (startRefreshTimer settings s) = true ∧
    (startRefreshTimer settings s).visibleActions = s.visibleActions := by
  obtain ⟨h1, h2, h3⟩ := clearRefreshTimer_spec s h
  unfold startRefreshTimer
  by_cases hi : settings.refreshInterval.getD 600000 > 0
  · simp [hi, timerLinked, h1, h2, h3]
  · simp [hi, timerLinked, h1, h2, h3]

/-- One well-formed event preserves the timer invariant. -/
theorem schedStep_inv (s : SchedState) (e : SchedEv)
    (hv : validEv s e = true) (h : schedInv s = true) :
    schedInv (schedStep s e) = true := by
  have hl : timerLinked s = true := by
    unfold schedInv at h
    exact (Bool.and_eq_true_iff.mp h).1
  cases e with
  | appear id settings =>
      have hl2 : timerLinked { s with visibleActions := mapSet s.visibleActions id settings } = true := hl
      obtain ⟨ht, hvis⟩ := startRefreshTimer_spec settings _ hl2
      unfold schedStep schedOnWillAppear schedInv
      refine Bool.and_eq_true_iff.mpr ⟨ht, Bool.or_eq_true_iff.mpr (Or.inr ?_)⟩
      rw [hvis]
      simp only [Bool.not_eq_true']
      exact isEmpty_false_of_ne_nil _ (mapSet_ne_nil s.visibleActions id settings)
  | disappear id =>
      unfold schedStep schedOnWillDisappear
      set s1 : SchedState := { s with visibleActions := mapDelete s.visibleActions id } with hs1
      have hl1 : timerLinked s1 = true := hl
      by_cases he : s1.visibleActions.isEmpty
      · obtain ⟨h1, h2, h3⟩ := clearRefreshTimer_spec s1 hl1
        simp only [he, if_true]
        unfold schedInv timerLinked
        rw [h1, h2]
        simp
      · simp only [he, Bool.false_eq_true, if_false]
        unfold schedInv
        refine Bool.and_eq_true_iff.mpr ⟨hl1, Bool.or_eq_true_iff.mpr (Or.inr ?_)⟩
        simp only [Bool.not_eq_eq_eq_not, Bool.not_false]
        simpa using he
  | settingsChanged id settings =>
      obtain ⟨ht, hvis⟩ := startRefreshTimer_spec settings s hl
      unfold schedStep schedOnDidReceiveSettings schedInv
      refine Bool.and_eq_true_iff.mpr ⟨ht, Bool.or_eq_true_iff.mpr (Or.inr ?_)⟩
      rw [hvis]
      simp only [validEv] at hv
      simp only [Bool.not_eq_true']
      exact isEmpty_false_of_ne_nil _ (ne_nil_of_mapHasKey s.visibleActions id hv)

/-- Any well-formed event sequence preserves the timer invariant. -/
theorem runSched_inv (evs : List SchedEv) :
    ∀ s0 s : SchedState, schedInv s0 = true → runSched s0 evs = some s →
      schedInv s = true := by
  induction evs with
  | nil =>
      intro s0 s h hr
      simp only [runSched, Option.some_inj] at hr
      exact hr ▸ h
  | cons e es ih =>
      intro s0 s h hr
      unfold runSched at hr
      by_cases hv : validEv s0 e = true
      · rw [if_pos hv] at hr
        exact ih _ _ (schedStep_inv s0 e hv h) hr
      · simp [hv] at hr

/-- The linked part of the invariant bounds the scheduled-timer count. -/
theorem timerLinked_length_le (s : SchedState) (h : timerLinked s = true) :
    s.activeTimers.length ≤ 1 := by
  unfold timerLinked at h
  cases hr : s.refreshTimer with
  | none =>
      rw [hr] at h
      simp only [beq_iff_eq] at h
      simp [h]
  | some h0 =>
      rw [hr] at h
      simp only [beq_iff_eq] at h
      simp [h]

/-! ## The claims -/

/-- Claim C4: for a call to the public-address getter with a truthy cached
value, an entry younger than the 5-minute threshold is served straight
from the cache — the call returns the cached value, leaves the cache
untouched and issues no outbound lookup — while an entry at or past the
threshold causes a lookup to be issued. -/
theorem publicIP_cacheWindow (cache : PublicIPCache) (now : Int)
    (fetch : FetchResult) (hip : jsTruthyStr cache.ip = true) :
    (now - cache.timestamp < CACHE_DURATION →
      getPublicIPAddress cache now fetch = ⟨cache, cache.ip, false⟩) ∧
    (CACHE_DURATION ≤ now - cache.timestamp →
      (getPublicIPAddress cache now fetch).lookupIssued = true) := by
  constructor
  · intro h
    simp [getPublicIPAddress, cacheValid, hip, h]
  · intro h
    have hc : cacheValid cache now = false := by
      simp only [cacheValid, hip, Bool.true_and, decide_eq_false_iff_not]
      omega
    cases fetch <;> simp [getPublicIPAddress, hc]

/-- Witness for C4: a cache entry `"1.2.3.4"` fetched at 0 is served
without a lookup at 4 minutes and triggers a lookup at 6 minutes. -/
theorem publicIP_cacheWindow_witness :
    getPublicIPAddress ⟨some "1.2.3.4", 0⟩ 240000 FetchResult.netError =
      ⟨⟨some "1.2.3.4", 0⟩, some "1.2.3.4", false⟩ ∧
    (getPublicIPAddress ⟨some "1.2.3.4", 0⟩ 360000
      FetchResult.netError).lookupIssued = true :=
  ⟨(publicIP_cacheWindow ⟨some "1.2.3.4", 0⟩ 240000 FetchResult.netError
      (by decide)).1 (by decide),
   (publicIP_cacheWindow ⟨some "1.2.3.4", 0⟩ 360000 FetchResult.netError
      (by decide)).2 (by decide)⟩

/-- Claim C9 (implicit): whenever the cached value is null — the initial
state, or after the cache was written with a null value — every call to
the public-address getter issues the outbound lookup, regardless of the
cached timestamp: the 5-minute suppression applies only to a non-null
cached value. -/
theorem publicIP_nullCache_alwaysFetches (cache : PublicIPCache) (now : Int)
    (fetch : FetchResult) (h : cache.ip = none) :
    (getPublicIPAddress cache now fetch).lookupIssued = true := by
  have hc : cacheValid cache now = false := by
    simp [cacheValid, h, jsTruthyStr]
  cases fetch <;> simp [getPublicIPAddress, hc]

/-- Witness for C9: a null cache entry written at the very instant of the
call still triggers a lookup. -/
theorem publicIP_nullCache_alwaysFetches_witness :
    (getPublicIPAddress ⟨none, 360000⟩ 360000
      FetchResult.netError).lookupIssued = true :=
  publicIP_nullCache_alwaysFetches ⟨none, 360000⟩ 360000 FetchResult.netError
    rfl

/-- Claim C2 counterexample: an HTTP-success response whose parseable body
lacks the `ip` field — a malformed body for a service whose body is
supposed to carry the caller's address — is treated by the code as a
successful lookup: with a 6-minute-old cache holding `"1.2.3.4"`, the call
overwrites the cache entry (value and timestamp) with a null value at the
current instant and returns null instead of the previously cached value,
refuting "the cache entry is left exactly as it was before the call, and
the value cached before the call is returned". -/
theorem publicIP_malformedBody_cex :
    (getPublicIPAddress ⟨some "1.2.3.4", 0⟩ 360000 (FetchResult.ok none)).cache =
      ⟨none, 360000⟩ ∧
    (getPublicIPAddress ⟨some "1.2.3.4", 0⟩ 360000 (FetchResult.ok none)).cache ≠
      ⟨some "1.2.3.4", 0⟩ ∧
    (getPublicIPAddress ⟨some "1.2.3.4", 0⟩ 360000 (FetchResult.ok none)).result ≠
      some "1.2.3.4" := by decide

/-- Claim C2 as amended: a lookup failure that raises — network error,
non-success HTTP status, or a body that fails JSON parsing — is caught
(the getter is total), leaves the cache entry exactly as it was, and
returns the previously cached value; but a parseable body without a truthy
`ip` field is treated as a successful null lookup and overwrites the cache
entry with a null value and the current timestamp. -/
theorem publicIP_failureMasking (cache : PublicIPCache) (now : Int)
    (fetch : FetchResult) :
    (fetchThrows fetch = true →
      (getPublicIPAddress cache now fetch).cache = cache ∧
      (getPublicIPAddress cache now fetch).result = cache.ip) ∧
    (cacheValid cache now = false →
      ∀ ip?, fetch = FetchResult.ok ip? → jsTruthyStr ip? = false →
        (getPublicIPAddress cache now fetch).cache = ⟨none, now⟩ ∧
        (getPublicIPAddress cache now fetch).result = none) := by
  constructor
  · intro hthrow
    by_cases hc : cacheValid cache now
    · simp [getPublicIPAddress, hc]
    · cases fetch with
      | netError => simp [getPublicIPAddress, hc]
      | httpError s => simp [getPublicIPAddress, hc]
      | jsonError => simp [getPublicIPAddress, hc]
      | ok ip? => simp [fetchThrows] at hthrow
  · intro hc ip? hfetch htruthy
    subst hfetch
    simp [getPublicIPAddress, hc, jsOrNull, htruthy]

/-- Witness for the amended C2: at a 6-minute-old cache holding
`"1.2.3.4"`, a network error leaves the entry and returns the old value,
while an ip-less body overwrites it with null. -/
theorem publicIP_failureMasking_witness :
    ((getPublicIPAddress ⟨some "1.2.3.4", 0⟩ 360000 FetchResult.netError).cache =
        ⟨some "1.2.3.4", 0⟩ ∧
      (getPublicIPAddress ⟨some "1.2.3.4", 0⟩ 360000 FetchResult.netError).result =
        some "1.2.3.4") ∧
    ((getPublicIPAddress ⟨some "1.2.3.4", 0⟩ 360000 (FetchResult.ok none)).cache =
        ⟨none, 360000⟩ ∧
      (getPublicIPAddress ⟨some "1.2.3.4", 0⟩ 360000 (FetchResult.ok none)).result =
        none) :=
  ⟨(publicIP_failureMasking ⟨some "1.2.3.4", 0⟩ 360000 FetchResult.netError).1
      (by decide),
   (publicIP_failureMasking ⟨some "1.2.3.4", 0⟩ 360000 (FetchResult.ok none)).2
      (by decide) none rfl (by decide)⟩

/-- Claim C5: the local-address resolver agrees everywhere with the
spec-side resolver (first non-loopback IPv4 address of the hinted adapter
when that adapter exists and has one; otherwise the first qualifying
address over all adapters in enumeration order), and returns null — it is
a total function, so it never throws — whenever no adapter has a
qualifying address. -/
theorem localResolver_matches_spec (nets : Nets) (hint : Option String) :
    getLocalIPAddress nets hint = resolveLocalAddressSpec nets hint ∧
    (qualifyingAddresses nets = [] → getLocalIPAddress nets hint = none) := by
  refine ⟨getLocalIPAddress_eq_spec nets hint, fun hq => ?_⟩
  rw [getLocalIPAddress_eq_spec]
  unfold resolveLocalAddressSpec
  cases hint with
  | none => simp [hq]
  | some name =>
      by_cases he : name.isEmpty
      · simp [he, hq]
      · cases hf : findNet nets name with
        | none => simp [he, hf, hq]
        | some addrs =>
            have hanil := adapterQualifying_nil_of_qualifying_nil nets name
              addrs hf hq
            simp [he, hf, hanil, hq]

/-- Claim C1 counterexample: a short press (release 500 ms after the
press) on the dual-display action while the cache holds `"1.2.3.4"`
fetched at instant 100, with the forced lookup failing: after the
press/release cycle the cache holds the cleared sentinel `(null, 0)` — the
short-press path implements force-refresh by destructively clearing the
cache before the lookup — refuting "if the forced lookup fails, the cache
still holds the value and timestamp it held before the force-refresh
began". -/
theorem shortPress_forcedLookup_cex :
    (onKeyUp ⟨[], [("a", ⟨1000, 1800, none, none⟩)], ⟨some "1.2.3.4", 100⟩, none⟩
        "a" 1500 [] ⟨none, none, none, none, none⟩
        FetchResult.netError).state.publicIPCache = ⟨none, 0⟩ ∧
    (onKeyUp ⟨[], [("a", ⟨1000, 1800, none, none⟩)], ⟨some "1.2.3.4", 100⟩, none⟩
        "a" 1500 [] ⟨none, none, none, none, none⟩
        FetchResult.netError).state.publicIPCache ≠ ⟨some "1.2.3.4", 100⟩ := by
  decide

/-- Claim C1 as amended: on the short-press path of the dual-display
action a public-address lookup is always issued regardless of the cache's
age (the cache is first overwritten with the sentinel `(null, 0)`, which
defeats the freshness pre-check); on a successful lookup the cache is
updated with the looked-up value and the current instant; on a failed
lookup the cache is left holding the sentinel — the pre-refresh entry is
lost — and the re-render shows a null public address. -/
theorem shortPress_forcedLookup (st : ActionState) (id : String) (now : Int)
    (nets : Nets) (settings : IPSettings) (fetch : FetchResult)
    (pd : PressData) (hpress : mapGet st.pressTimers id = some pd)
    (hshort : now - pd.timestamp < LONG_PRESS_THRESHOLD) :
    (onKeyUp st id now nets settings fetch).lookupIssued = true ∧
    (∀ ip?, fetch = FetchResult.ok ip? →
      (onKeyUp st id now nets settings fetch).state.publicIPCache =
        ⟨jsOrNull ip?, now⟩) ∧
    (fetchThrows fetch = true →
      (onKeyUp st id now nets settings fetch).state.publicIPCache = ⟨none, 0⟩ ∧
      (onKeyUp st id now nets settings fetch).ops =
        [HostOp.setImage (generateIPImage
          (getLocalIPAddress nets settings.networkInterface) none settings)]) := by
  have hc : cacheValid ⟨none, 0⟩ now = false := by
    simp [cacheValid, jsTruthyStr]
  refine ⟨?_, ?_, ?_⟩
  · cases fetch <;> simp [onKeyUp, hpress, hshort, getPublicIPAddress, hc]
  · intro ip? hf
    subst hf
    simp [onKeyUp, hpress, hshort, getPublicIPAddress, hc]
  · intro ht
    cases fetch with
    | netError => simp [onKeyUp, hpress, hshort, getPublicIPAddress, hc]
    | httpError s => simp [onKeyUp, hpress, hshort, getPublicIPAddress, hc]
    | jsonError => simp [onKeyUp, hpress, hshort, getPublicIPAddress, hc]
    | ok ip? => simp [fetchThrows] at ht

/-- Witness for the amended C1: a concrete short press with a failing
forced lookup issues the lookup and leaves the sentinel cache. -/
theorem shortPress_forcedLookup_witness :
    (onKeyUp ⟨[], [("a", ⟨1000, 1800, none, none⟩)], ⟨some "9.9.9.9", 900⟩, none⟩
        "a" 1500 [] ⟨none, none, none, none, none⟩
        FetchResult.netError).lookupIssued = true ∧
    (onKeyUp ⟨[], [("a", ⟨1000, 1800, none, none⟩)], ⟨some "9.9.9.9", 900⟩, none⟩
        "a" 1500 [] ⟨none, none, none, none, none⟩
        FetchResult.netError).state.publicIPCache = ⟨none, 0⟩ :=
  ⟨(shortPress_forcedLookup ⟨[], [("a", ⟨1000, 1800, none, none⟩)],
        ⟨some "9.9.9.9", 900⟩, none⟩ "a" 1500 [] ⟨none, none, none, none, none⟩
        FetchResult.netError ⟨1000, 1800, none, none⟩ rfl (by decide)).1,
   ((shortPress_forcedLookup ⟨[], [("a", ⟨1000, 1800, none, none⟩)],
        ⟨some "9.9.9.9", 900⟩, none⟩ "a" 1500 [] ⟨none, none, none, none, none⟩
        FetchResult.netError ⟨1000, 1800, none, none⟩ rfl (by decide)).2.2
      (by decide)).1⟩

/-- Claim C10 (implicit): a key-up event with no recorded press state — no
preceding key-down, or the record already consumed or discarded — makes
the handler return without doing anything, in both the dual-display and
the public-IP-only actions: the state (press map, public-address cache,
refresh timer, visible set) is returned unchanged, no host call is made
and no lookup is issued. -/
theorem keyUp_noPressState_noop (st : ActionState) (pst : PublicActionState)
    (id pid : String) (now pnow : Int) (nets : Nets) (settings : IPSettings)
    (fetch pfetch : FetchResult)
    (h : mapGet st.pressTimers id = none)
    (hp : mapGet pst.pressTimers pid = none) :
    onKeyUp st id now nets settings fetch = ⟨st, [], false⟩ ∧
    publicOnKeyUp pst pid pnow pfetch = ⟨pst, [], false⟩ := by
  constructor
  · simp [onKeyUp, h]
  · simp [publicOnKeyUp, hp]

/-- Witness for C10: a key-up on a fresh instance with an empty press map
is a no-op in both actions. -/
theorem keyUp_noPressState_noop_witness :
    onKeyUp ⟨[], [], ⟨none, 0⟩, none⟩ "a" 0 [] ⟨none, none, none, none, none⟩
      FetchResult.netError = ⟨⟨[], [], ⟨none, 0⟩, none⟩, [], false⟩ ∧
    publicOnKeyUp ⟨[], [], ⟨none, 0⟩, none⟩ "a" 0 FetchResult.netError =
      ⟨⟨[], [], ⟨none, 0⟩, none⟩, [], false⟩ :=
  keyUp_noPressState_noop ⟨[], [], ⟨none, 0⟩, none⟩ ⟨[], [], ⟨none, 0⟩, none⟩
    "a" "a" 0 0 [] ⟨none, none, none, none, none⟩ FetchResult.netError
    FetchResult.netError rfl rfl

/-- Claim C3 counterexample: press at 0, the key-down handler's awaited
public-address fetch delaying the arming of the long-press timer to
instant 300 (so it would fire at 1100), release at 900: the elapsed press
time is 900 ms, at or above the 800 ms threshold, so the claim demands
exactly the long-press action — but the timer has not yet fired at the
release, which cancels it, and the key-up duration check suppresses the
short-press branch too: neither action occurs. -/
theorem pressCycle_disambiguation_cex :
    mapGet (onKeyDown ⟨[], [], ⟨none, 0⟩, none⟩ "a" 0 0 300 []
        ⟨none, none, none, none, none⟩ FetchResult.netError).pressTimers "a" =
      some ⟨0, 1100, none, none⟩ ∧
    shortPressFires (onKeyDown ⟨[], [], ⟨none, 0⟩, none⟩ "a" 0 0 300 []
        ⟨none, none, none, none, none⟩ FetchResult.netError) "a" 900 = false ∧
    longPressFires ⟨0, 1100, none, none⟩ 900 = false ∧
    ¬((900 : Int) - 0 < LONG_PRESS_THRESHOLD) := by decide

/-- Claim C3 as amended: for a press/release cycle on a visible instance —
press recorded at `pressTime`, long-press timer armed at `armTime` (the
key-down handler awaits the public-address lookup in between, so
`pressTime ≤ armTime`), release at `releaseTime` — the short-press action
runs if and only if the elapsed time `releaseTime - pressTime` is strictly
below 800 ms, the long-press action runs if and only if the timer's firing
instant `armTime + 800` has arrived by the release, and the two are never
both taken; when the timer is armed at the press instant itself (an
immediate await), exactly one of the two actions occurs, with the 800 ms
elapsed-time split of the claim.  The short-press branch is equivalent to
the key-up handler emitting a render. -/
theorem pressCycle_disambiguation (st st1 : ActionState) (id : String)
    (pressTime fetchNow armTime releaseTime : Int) (nets nets2 : Nets)
    (settings settings2 : IPSettings) (fetch fetch2 : FetchResult)
    (hpa : pressTime ≤ armTime)
    (hst1 : st1 = onKeyDown st id pressTime fetchNow armTime nets settings fetch) :
    mapGet st1.pressTimers id = some
      ⟨pressTime, armTime + LONG_PRESS_THRESHOLD,
        getLocalIPAddress nets settings.networkInterface,
        (getPublicIPAddress st.publicIPCache fetchNow fetch).result⟩ ∧
    (shortPressFires st1 id releaseTime = true ↔
      releaseTime - pressTime < LONG_PRESS_THRESHOLD) ∧
    (∀ pd, mapGet st1.pressTimers id = some pd →
      (longPressFires pd releaseTime = true ↔
        armTime + LONG_PRESS_THRESHOLD ≤ releaseTime) ∧
      ¬(shortPressFires st1 id releaseTime = true ∧
        longPressFires pd releaseTime = true) ∧
      (armTime = pressTime →
        (shortPressFires st1 id releaseTime = true ↔
          ¬ longPressFires pd releaseTime = true))) ∧
    (shortPressFires st1 id releaseTime = true ↔
      (onKeyUp st1 id releaseTime nets2 settings2 fetch2).ops ≠ []) := by
  subst hst1
  have ha : mapGet (onKeyDown st id pressTime fetchNow armTime nets settings
      fetch).pressTimers id = some
      ⟨pressTime, armTime + LONG_PRESS_THRESHOLD,
        getLocalIPAddress nets settings.networkInterface,
        (getPublicIPAddress st.publicIPCache fetchNow fetch).result⟩ := by
    simp [onKeyDown, mapGet_mapSet_self]
  refine ⟨ha, ?_, ?_, ?_⟩
  · simp [shortPressFires, ha]
  · intro pd hpd
    rw [ha] at hpd
    obtain rfl := (Option.some.inj hpd).symm
    refine ⟨by simp [longPressFires], ?_, ?_⟩
    · rintro ⟨hs, hl⟩
      simp [shortPressFires, ha] at hs
      simp [longPressFires] at hl
      unfold LONG_PRESS_THRESHOLD at hs hl
      omega
    · intro harm
      subst harm
      simp [shortPressFires, ha, longPressFires]
      omega
  · constructor
    · intro hs
      have hlt : releaseTime - pressTime < LONG_PRESS_THRESHOLD := by
        simpa [shortPressFires, ha] using hs
      simp [onKeyUp, ha, hlt]
    · intro hops
      by_contra hns
      simp [shortPressFires, ha] at hns
      refine hops ?_
      simp only [onKeyUp, ha]
      rw [if_neg (by omega)]

/-- Witness for the amended C3: press at 0 with the timer armed at the
press instant, release at 900 — the short press does not fire, the
long press does, and exactly one of the two occurs. -/
theorem pressCycle_disambiguation_witness :
    (shortPressFires (onKeyDown ⟨[], [], ⟨none, 0⟩, none⟩ "a" 0 0 0 []
        ⟨none, none, none, none, none⟩ FetchResult.netError) "a" 900 = true ↔
      (900 : Int) - 0 < LONG_PRESS_THRESHOLD) ∧
    ¬(shortPressFires (onKeyDown ⟨[], [], ⟨none, 0⟩, none⟩ "a" 0 0 0 []
        ⟨none, none, none, none, none⟩ FetchResult.netError) "a" 900 = true ∧
      longPressFires ⟨0, 800, none, none⟩ 900 = true) ∧
    (shortPressFires (onKeyDown ⟨[], [], ⟨none, 0⟩, none⟩ "a" 0 0 0 []
        ⟨none, none, none, none, none⟩ FetchResult.netError) "a" 900 = true ↔
      ¬ longPressFires ⟨0, 800, none, none⟩ 900 = true) := by
  have h := pressCycle_disambiguation ⟨[], [], ⟨none, 0⟩, none⟩
    (onKeyDown ⟨[], [], ⟨none, 0⟩, none⟩ "a" 0 0 0 []
      ⟨none, none, none, none, none⟩ FetchResult.netError)
    "a" 0 0 0 900 [] [] ⟨none, none, none, none, none⟩
    ⟨none, none, none, none, none⟩ FetchResult.netError FetchResult.netError
    (by decide) rfl
  have hc := h.2.2.1 ⟨0, 800, none, none⟩ (by decide)
  exact ⟨h.2.1, hc.2.1, hc.2.2 rfl⟩

/-- Claim C7: a disambiguated short press on the toggle button advances
the mode one step along the fixed cycle `dual → local → public → dual`
(wrapping after `public`), and the key-up handler's host-call trace is
exactly the `setSettings` write persisting the new mode followed by the
`setImage` delivery of the image rendered for that new mode — the
persistence write precedes the re-render that reflects it. -/
theorem toggleShortPress_persistsThenRenders (st : ToggleActionState)
    (id : String) (now : Int) (nets : Nets) (settings : ToggleSettings)
    (fetch : FetchResult) (pd : TPressData)
    (hpress : mapGet st.pressTimers id = some pd)
    (hshort : now - pd.timestamp < LONG_PRESS_THRESHOLD) :
    getNextMode "dual" = "local" ∧ getNextMode "local" = "public" ∧
    getNextMode "public" = "dual" ∧
    (toggleOnKeyUp st id now nets settings fetch).ops =
      [ToggleOp.setSettings
         { settings with mode := some (getNextMode (settings.mode.getD "dual")) },
       ToggleOp.setImage (generateToggleImage
         (getLocalIPAddress nets settings.networkInterface)
         (getPublicIPAddress ⟨none, 0⟩ now fetch).result
         (getNextMode (settings.mode.getD "dual")) settings)] := by
  refine ⟨by decide, by decide, by decide, ?_⟩
  simp [toggleOnKeyUp, hpress, hshort]

/-- Witness for C7: a concrete short press in `dual` mode persists
`local` and then renders for `local`. -/
theorem toggleShortPress_persistsThenRenders_witness :
    getNextMode "dual" = "local" ∧ getNextMode "local" = "public" ∧
    getNextMode "public" = "dual" ∧
    (toggleOnKeyUp
        ⟨[], [("a", ⟨1000, 1800, none, none, "dual"⟩)], ⟨none, 0⟩, none⟩
        "a" 1500 [] ⟨some "dual", none, none, none, none, none, none, none⟩
        FetchResult.netError).ops =
      [ToggleOp.setSettings
         ⟨some (getNextMode "dual"), none, none, none, none, none, none, none⟩,
       ToggleOp.setImage (generateToggleImage none none (getNextMode "dual")
         ⟨some "dual", none, none, none, none, none, none, none⟩)] :=
  toggleShortPress_persistsThenRenders
    ⟨[], [("a", ⟨1000, 1800, none, none, "dual"⟩)], ⟨none, 0⟩, none⟩
    "a" 1500 [] ⟨some "dual", none, none, none, none, none, none, none⟩
    FetchResult.netError ⟨1000, 1800, none, none, "dual"⟩ (by decide) (by decide)

/-- Claim C8: the status dot of the dual layouts (`generateIPImage`, and
`generateToggleImage` in `dual` mode) is green when both addresses are
truthy, amber (`#FFAA00`) when exactly one is, and red when neither is;
the single-address toggle layouts show green exactly when the relevant
address is truthy and red otherwise. -/
theorem statusDot_colors (localIP publicIP : Option String)
    (settings : IPSettings) (ts : ToggleSettings) :
    (jsTruthyStr localIP = true → jsTruthyStr publicIP = true →
      (generateIPImage localIP publicIP settings).dotColor = "#00FF00" ∧
      (generateToggleImage localIP publicIP "dual" ts).dotColor = "#00FF00") ∧
    (jsTruthyStr localIP ≠ jsTruthyStr publicIP →
      (generateIPImage localIP publicIP settings).dotColor = "#FFAA00" ∧
      (generateToggleImage localIP publicIP "dual" ts).dotColor = "#FFAA00") ∧
    (jsTruthyStr localIP = false → jsTruthyStr publicIP = false →
      (generateIPImage localIP publicIP settings).dotColor = "#FF6B6B" ∧
      (generateToggleImage localIP publicIP "dual" ts).dotColor = "#FF6B6B") ∧
    ((generateToggleImage localIP publicIP "local" ts).dotColor =
      if jsTruthyStr localIP then "#00FF00" else "#FF6B6B") ∧
    ((generateToggleImage localIP publicIP "public" ts).dotColor =
      if jsTruthyStr publicIP then "#00FF00" else "#FF6B6B") := by
  cases hl : jsTruthyStr localIP <;> cases hp : jsTruthyStr publicIP <;>
    simp [generateIPImage, generateToggleImage, dualStatusDotColor, hl, hp]

/-- Witness for C8: concrete address pairs hit green, amber and red in the
dual layout, and the single-address layouts follow the relevant value. -/
theorem statusDot_colors_witness :
    (generateIPImage (some "10.0.0.5") (some "1.2.3.4")
      ⟨none, none, none, none, none⟩).dotColor = "#00FF00" ∧
    (generateIPImage (some "10.0.0.5") none
      ⟨none, none, none, none, none⟩).dotColor = "#FFAA00" ∧
    (generateIPImage none none
      ⟨none, none, none, none, none⟩).dotColor = "#FF6B6B" ∧
    (generateToggleImage (some "10.0.0.5") none "local"
      ⟨none, none, none, none, none, none, none, none⟩).dotColor = "#00FF00" ∧
    (generateToggleImage (some "10.0.0.5") none "public"
      ⟨none, none, none, none, none, none, none, none⟩).dotColor = "#FF6B6B" :=
  ⟨((statusDot_colors (some "10.0.0.5") (some "1.2.3.4")
      ⟨none, none, none, none, none⟩
      ⟨none, none, none, none, none, none, none, none⟩).1
      (by decide) (by decide)).1,
   ((statusDot_colors (some "10.0.0.5") none ⟨none, none, none, none, none⟩
      ⟨none, none, none, none, none, none, none, none⟩).2.1 (by decide)).1,
   ((statusDot_colors none none ⟨none, none, none, none, none⟩
      ⟨none, none, none, none, none, none, none, none⟩).2.2.1
      (by decide) (by decide)).1,
   (statusDot_colors (some "10.0.0.5") none ⟨none, none, none, none, none⟩
      ⟨none, none, none, none, none, none, none, none⟩).2.2.2.1,
   (statusDot_colors (some "10.0.0.5") none ⟨none, none, none, none, none⟩
      ⟨none, none, none, none, none, none, none, none⟩).2.2.2.2⟩

/-- Claim C6: in every state reachable by a well-formed
appear/disappear/settings-change sequence of one button type, at most one
shared refresh timer is scheduled, and a scheduled timer exists only while
the visible-instance set is non-empty; moreover, from any state satisfying
the timer invariant, registering a further instance keeps the
scheduled-timer count at most one, removing one of two (or more) visible
instances leaves the held timer and the scheduled set untouched, and
removing the only visible instance cancels the timer. -/
theorem refreshTimer_shared :
    (∀ evs s, runSched initSched evs = some s →
      s.activeTimers.length ≤ 1 ∧
      (s.activeTimers ≠ [] → s.visibleActions ≠ [])) ∧
    (∀ s id settings, schedInv s = true →
      (schedOnWillAppear id settings s).activeTimers.length ≤ 1) ∧
    (∀ s id h, schedInv s = true → s.refreshTimer = some h →
      2 ≤ s.visibleActions.length →
      (schedOnWillDisappear id s).refreshTimer = some h ∧
      (schedOnWillDisappear id s).activeTimers = s.activeTimers) ∧
    (∀ s id settings, schedInv s = true →
      s.visibleActions = [(id, settings)] →
      (schedOnWillDisappear id s).refreshTimer = none ∧
      (schedOnWillDisappear id s).activeTimers = []) := by
  refine ⟨?_, ?_, ?_, ?_⟩
  · intro evs s hr
    have hinv := runSched_inv evs initSched s (by decide) hr
    have hl := (Bool.and_eq_true_iff.mp hinv).1
    have h2 := (Bool.and_eq_true_iff.mp hinv).2
    refine ⟨timerLinked_length_le s hl, fun hne => ?_⟩
    cases hrt : s.refreshTimer with
    | none =>
        unfold timerLinked at hl
        rw [hrt] at hl
        simp only [beq_iff_eq] at hl
        exact absurd hl hne
    | some h0 =>
        rcases Bool.or_eq_true_iff.mp h2 with h2 | h2
        · rw [hrt] at h2
          simp at h2
        · intro hnil
          rw [hnil] at h2
          simp at h2
  · intro s id settings hinv
    have hl : timerLinked
        { s with visibleActions := mapSet s.visibleActions id settings } = true :=
      (Bool.and_eq_true_iff.mp hinv).1
    obtain ⟨ht, -⟩ := startRefreshTimer_spec settings _ hl
    exact timerLinked_length_le _ ht
  · intro s id h hinv hr hlen
    have hg := mapDelete_length_ge s.visibleActions id
    have hne : mapDelete s.visibleActions id ≠ [] := by
      intro hnil
      rw [hnil] at hg
      simp at hg
      omega
    have hie : (mapDelete s.visibleActions id).isEmpty = false :=
      isEmpty_false_of_ne_nil _ hne
    unfold schedOnWillDisappear
    simp [hie, hr]
  · intro s id settings hinv hvis
    have hdel : mapDelete s.visibleActions id = [] := by
      rw [hvis]
      simp [mapDelete]
    have hl : timerLinked
        { s with visibleActions := mapDelete s.visibleActions id } = true :=
      (Bool.and_eq_true_iff.mp hinv).1
    obtain ⟨h1, h2, -⟩ := clearRefreshTimer_spec _ hl
    rw [hdel] at h1 h2
    unfold schedOnWillDisappear
    simp only [hdel, List.isEmpty_nil, if_true]
    exact ⟨h1, h2⟩

/-- Witness for C6: two instances of one type appearing produces one
timer; a third registration keeps the count at one; removing one of the
two leaves the timer; removing the survivor cancels it. -/
theorem refreshTimer_shared_witness :
    ((⟨[("B", ⟨some 300, none, none, none, none⟩)], some 1, 2, [1]⟩ :
        SchedState).activeTimers.length ≤ 1 ∧
      ((⟨[("B", ⟨some 300, none, none, none, none⟩)], some 1, 2, [1]⟩ :
        SchedState).activeTimers ≠ [] →
       (⟨[("B", ⟨some 300, none, none, none, none⟩)], some 1, 2, [1]⟩ :
        SchedState).visibleActions ≠ [])) ∧
    (schedOnWillAppear "C" ⟨some 300, none, none, none, none⟩
      ⟨[("B", ⟨some 300, none, none, none, none⟩)], some 1, 2, [1]⟩
      ).activeTimers.length ≤ 1 ∧
    ((schedOnWillDisappear "A"
        ⟨[("A", ⟨some 300, none, none, none, none⟩),
          ("B", ⟨some 300, none, none, none, none⟩)], some 1, 2, [1]⟩
      ).refreshTimer = some 1 ∧
     (schedOnWillDisappear "A"
        ⟨[("A", ⟨some 300, none, none, none, none⟩),
          ("B", ⟨some 300, none, none, none, none⟩)], some 1, 2, [1]⟩
      ).activeTimers =
      (⟨[("A", ⟨some 300, none, none, none, none⟩),
         ("B", ⟨some 300, none, none, none, none⟩)], some 1, 2, [1]⟩ :
        SchedState).activeTimers) ∧
    ((schedOnWillDisappear "B"
        ⟨[("B", ⟨some 300, none, none, none, none⟩)], some 1, 2, [1]⟩
      ).refreshTimer = none ∧
     (schedOnWillDisappear "B"
        ⟨[("B", ⟨some 300, none, none, none, none⟩)], some 1, 2, [1]⟩
      ).activeTimers = []) :=
  ⟨refreshTimer_shared.1
      [SchedEv.appear "A" ⟨some 300, none, none, none, none⟩,
       SchedEv.appear "B" ⟨some 300, none, none, none, none⟩,
       SchedEv.disappear "A"]
      ⟨[("B", ⟨some 300, none, none, none, none⟩)], some 1, 2, [1]⟩
      (by decide),
   refreshTimer_shared.2.1
      ⟨[("B", ⟨some 300, none, none, none, none⟩)], some 1, 2, [1]⟩
      "C" ⟨some 300, none, none, none, none⟩ (by decide),
   refreshTimer_shared.2.2.1
      ⟨[("A", ⟨some 300, none, none, none, none⟩),
        ("B", ⟨some 300, none, none, none, none⟩)], some 1, 2, [1]⟩
      "A" 1 (by decide) (by decide) (by decide),
   refreshTimer_shared.2.2.2
      ⟨[("B", ⟨some 300, none, none, none, none⟩)], some 1, 2, [1]⟩
      "B" ⟨some 300, none, none, none, none⟩ (by decide) (by decide)⟩

/-- Witness for C5: an enumeration whose only adapter is the loopback
yields no qualifying address, and the resolver returns null even under a
hint naming an absent adapter. -/
theorem localResolver_matches_spec_witness :
    getLocalIPAddress
      ([("lo", [⟨AddrFamily.str "IPv4", true, "127.0.0.1"⟩])] : Nets)
      (some "eth0") = none :=
  (localResolver_matches_spec
      ([("lo", [⟨AddrFamily.str "IPv4", true, "127.0.0.1"⟩])] : Nets)
      (some "eth0")).2 (by decide)

end IPDisplay
